import Mathlib

/-!
Shallow embedding of the request-gating core of turnstile-proxy-server
(package `main`, file with `Server`, `handleProxy`, `getTemplate`,
`issueTokenAndReplay`, `replayRequest`), together with the semantics of the
small parts of its dependencies the handler relies on: Go's
`path/filepath.Clean` / `Join`, `net/url.URL.Hostname`, the `go-cache`
expiring map, and the `golang-jwt/v5` HMAC token codec (the latter two
modelled from their specified behavior since their sources are not part of
this repository).

Machine integers do not overflow on the quantities involved (Unix seconds,
small lengths), so times are `Int` and sizes `Nat`.
-/

namespace TPS

/-! ## String primitives

Go's `strings`/`path` functions work on bytes; the inputs here (paths,
hostnames, template names) are ASCII, where bytes and characters coincide,
so the embedding works on `List Char`. These primitives mirror
`strings.Split` (single-character separator), `strings.HasPrefix` /
`HasSuffix`, prefix/suffix removal by count, and `strings.Join`; they are
structurally recursive so that concrete instances reduce inside the
kernel. -/

/-- `strings.Split` on a one-character separator: `acc` is the current
field (reversed). Splitting the empty string yields `[""]`. -/
def splitCharAux (c : Char) : List Char → List Char → List (List Char)
  | [], acc => [acc.reverse]
  | x :: xs, acc =>
    if x = c then acc.reverse :: splitCharAux c xs []
    else splitCharAux c xs (x :: acc)

def strSplitChar (c : Char) (s : String) : List String :=
  (splitCharAux c s.toList []).map String.mk

/-- `strings.HasPrefix`. -/
def strHasPrefix (s pre : String) : Bool :=
  pre.toList.isPrefixOf s.toList

/-- `strings.HasSuffix`. -/
def strHasSuffix (s suf : String) : Bool :=
  suf.toList.reverse.isPrefixOf s.toList.reverse

/-- Drop the first `n` characters. -/
def strDrop (s : String) (n : Nat) : String :=
  String.mk (s.toList.drop n)

/-- Keep the first `n` characters. -/
def strTake (s : String) (n : Nat) : String :=
  String.mk (s.toList.take n)

/-- Drop the last `n` characters. -/
def strDropRight (s : String) (n : Nat) : String :=
  String.mk (s.toList.take (s.toList.length - n))

/-- `strings.Join`. -/
def strJoin (sep : String) : List String → String
  | [] => ""
  | [x] => x
  | x :: y :: xs => x ++ sep ++ strJoin sep (y :: xs)

/-! ## Go `path.Clean` / `filepath.Join` (pure lexical path algorithms)

`filepath.Clean` on a slash-separated path: collapse duplicate separators,
drop `.` elements, resolve `..` against a preceding element, keep leading
`..` on relative paths, drop `..` at the root of rooted paths; empty input
becomes `.`. -/

/-- One step of the `Clean` element scan: `acc` is the output stack
(reversed), `seg` the next path element. -/
def cleanStep (rooted : Bool) (acc : List String) (seg : String) : List String :=
  if seg = "" ∨ seg = "." then acc
  else if seg = ".." then
    match acc with
    | [] => if rooted then [] else [".."]
    | a :: rest => if a = ".." then ".." :: a :: rest else rest
  else seg :: acc

/-- Go `path.Clean` (= `filepath.Clean` on unix separators). -/
def goPathClean (p : String) : String :=
  if p = "" then "." else
  let rooted := strHasPrefix p "/"
  let segs := (strSplitChar '/' p).foldl (cleanStep rooted) []
  let out := strJoin "/" segs.reverse
  if rooted then "/" ++ out
  else if out = "" then "." else out

/-- Go `filepath.Join`: empty elements are dropped (Go joins from the first
non-empty element on and `Clean` collapses the duplicate separators the
remaining empty elements would leave), the rest joined with `/` and cleaned;
all-empty input yields `""`. -/
def goFilepathJoin (elems : List String) : String :=
  let ne := elems.filter (fun e => e ≠ "")
  if ne.isEmpty then "" else goPathClean (strJoin "/" ne)

/-! ## Go `net/url.URL` and `Hostname()` -/

/-- The components of a `net/url.URL` the gating core reads. For a server
request in origin form (the normal case: Go parses the request target
`/a/b?q` from the request line), `host` is empty; only an absolute-form
target populates it. The public host the client connected to lives in
`Request.host` (Go's `r.Host`), not here. -/
structure GoURL where
  scheme : String
  host : String
  path : String
  rawQuery : String
  deriving DecidableEq, Repr

/-- Index of the last `:` in a string (in characters), if any. -/
def lastColonIdx (s : String) : Option Nat :=
  (List.range s.toList.length).foldl
    (fun acc i => if s.toList.getD i ' ' = ':' then some i else acc) none

/-- Go `net/url` `validOptionalPort`: empty, or `:` followed by only
digits. -/
def validOptionalPort (p : String) : Bool :=
  if p = "" then true
  else strHasPrefix p ":" && (strDrop p 1).toList.all Char.isDigit

/-- Go `net/url` host of `splitHostPort`: strip a valid `:port` suffix,
then strip IPv6 brackets. -/
def splitHostPortHost (hostPort : String) : String :=
  let host :=
    match lastColonIdx hostPort with
    | none => hostPort
    | some i =>
        if validOptionalPort (strDrop hostPort i) then strTake hostPort i else hostPort
  if strHasPrefix host "[" && strHasSuffix host "]" then
    strDropRight (strDrop host 1) 1
  else host

/-- Go `URL.Hostname()`. -/
def GoURL.hostname (u : GoURL) : String :=
  splitHostPortHost u.host

/-- Simplified `URL.String()`: scheme, host, path, query reassembled. Only
`issueTokenAndReplay` uses it, to rebuild the replayed request's target; no
claim inspects its internal escaping. -/
def GoURL.render (u : GoURL) : String :=
  (if u.scheme ≠ "" then u.scheme ++ "://" else "")
    ++ u.host ++ u.path
    ++ (if u.rawQuery ≠ "" then "?" ++ u.rawQuery else "")

/-! ## Template registry and `getTemplate` -/

/-- The `Server.templates` map: template name → source path, as filled by
`LoadCoreTemplates` / `LoadCustomTemplates`. Modelled as an association
list; a missing key reads as `""` exactly like a Go map of strings. -/
abbrev TemplateMap := List (String × String)

def tmplLookup (tpls : TemplateMap) (name : String) : String :=
  match tpls.find? (fun p => p.1 = name) with
  | none => ""
  | some p => p.2

/-- One probe of `getTemplate`'s loop body at index `i`:
`source = host + "/" + strings.Join(parts[:i], "/")`,
`name = filepath.Join(source, shortname)`, hit iff `s.templates[name] != ""`. -/
def tmplTryAt (tpls : TemplateMap) (host : String) (parts : List String)
    (shortname : String) (i : Nat) : Option String :=
  let source := host ++ "/" ++ strJoin "/" (parts.take i)
  let name := goFilepathJoin [source, shortname]
  if tmplLookup tpls name ≠ "" then some name else none

/-- The loop `for i := len(parts); i >= 0; i--`: probe `i` first, then
shorter prefixes. -/
def tmplSearch (tpls : TemplateMap) (host : String) (parts : List String)
    (shortname : String) : Nat → Option String
  | 0 => tmplTryAt tpls host parts shortname 0
  | i + 1 =>
    match tmplTryAt tpls host parts shortname (i + 1) with
    | some n => some n
    | none => tmplSearch tpls host parts shortname i

/-- The path-element list `getTemplate` walks: the cleaned URL path, leading
slash removed, split on `/`; a lone empty element means no elements. -/
def tmplParts (urlPath : String) : List String :=
  let path := goPathClean urlPath
  let path := if strHasPrefix path "/" then strDrop path 1 else path
  let parts := strSplitChar '/' path
  if parts = [""] then [] else parts

/-- `Server.getTemplate`: longest-prefix search of the overrides keyed by
`r.URL.Hostname()` and the cleaned path, falling back to
`"core/" ++ shortname`. -/
def getTemplate (tpls : TemplateMap) (url : GoURL) (shortname : String) : String :=
  let host := url.hostname
  let parts := tmplParts url.path
  match tmplSearch tpls host parts shortname parts.length with
  | some name => name
  | none => "core/" ++ shortname

/-! ## Session tokens (`golang-jwt/v5` as used here)

Modelled from the spec: the JWT library itself is a dependency whose source
is not in this repository. The spec's SessionToken codec signs a fixed
claim set with an HMAC scheme and on verification rejects any non-HMAC
algorithm, any bad signature, and any token outside `[nbf, exp)` at the
current time; malformed tokens fail parsing. The HMAC is modelled as an
ideal MAC: a signature value records exactly the key and the signed content
(header algorithm + claims), so signature verification succeeds iff the
token was signed with the same key over the same content — the symbolic
counterpart of an unforgeable HMAC. golang-jwt/v5's default validation is
kept: `exp`, when present, requires `now < exp`; `nbf`, when present,
requires `nbf ≤ now`; `iat`, `iss`, `aud` are not validated by default. -/

/-- JOSE `alg` header values relevant here; `HS*` are the HMAC family
(`jwt.SigningMethodHMAC`). -/
inductive JwtAlg
  | HS256 | HS384 | HS512 | RS256 | ES256 | none_alg
  deriving DecidableEq, Repr

def JwtAlg.isHMAC : JwtAlg → Bool
  | .HS256 | .HS384 | .HS512 => true
  | _ => false

/-- The registered time claims the codec reads (absent claim = `none`). -/
structure JwtClaims where
  iat : Option Int
  exp : Option Int
  nbf : Option Int
  deriving DecidableEq, Repr

/-- Ideal-MAC signature values: a genuine MAC over (key, alg, claims), or
any other byte string (tampered / forged). -/
inductive JwtSig
  | mac (key : String) (alg : JwtAlg) (claims : JwtClaims)
  | forged (raw : String)
  deriving DecidableEq, Repr

/-- A cookie value as the verifier sees it: either a structurally valid JWT
(three base64 segments that decode) or malformed bytes. -/
inductive JwtToken
  | wellFormed (alg : JwtAlg) (claims : JwtClaims) (sig : JwtSig)
  | malformed (raw : String)
  deriving DecidableEq, Repr

/-- `jwt.Parse` with the keyfunc from `handleProxy` (reject any non-HMAC
method, otherwise hand back `s.jwtSigningKey`), reduced to its boolean
outcome (`parseErr == nil`). -/
def jwtValid (key : String) (now : Int) : JwtToken → Bool
  | .malformed _ => false
  | .wellFormed alg claims sig =>
    alg.isHMAC && (sig = JwtSig.mac key alg claims : Bool)
      && (match claims.exp with | none => true | some e => now < e)
      && (match claims.nbf with | none => true | some n => n ≤ now)

/-- The fixed claim set `issueTokenAndReplay` signs: `iat = nbf = now`,
`exp = now + 24h`, HS256, MACed with the server's signing key (`iss`/`aud`
are set too but never validated, so they are not part of the time-claim
record). -/
def signedToken (key : String) (now : Int) : JwtToken :=
  .wellFormed .HS256 ⟨some now, some (now + 86400), some now⟩
    (.mac key .HS256 ⟨some now, some (now + 86400), some now⟩)

/-! ## The pending-request cache (`go-cache` as used here)

Modelled from the spec: `go-cache` is a dependency whose source is not in
this repository. Per the spec's PendingRequestCache, `put` stores under a
key with expiry `now + 5m` (the cache is created with
`cache.New(5*time.Minute, 10*time.Minute)` and entries are `Set` with
`DefaultExpiration`), `take` returns the entry unless the key is unknown or
the lookup time is past the expiry, and the background sweep deletes every
entry past its expiry. Lookups do not mutate the store. Times are in
seconds. -/

/-- HTTP headers: a multimap, as Go's `http.Header`. -/
abbrev Headers := List (String × List String)

/-- `cachedRequest`: the snapshot `handleProxy` stores before serving a
challenge. -/
structure cachedRequest where
  method : String
  body : String
  headers : Headers
  url : GoURL
  deriving DecidableEq, Repr

structure CacheItem where
  value : cachedRequest
  expiresAt : Int
  deriving DecidableEq, Repr

abbrev Cache := List (String × CacheItem)

/-- The cache's default TTL: 5 minutes, in seconds. -/
def cacheTTL : Int := 300

/-- `c.Set(id, v, DefaultExpiration)`: overwrite the key with expiry
`now + TTL`. -/
def cacheSet (c : Cache) (id : String) (v : cachedRequest) (now : Int) : Cache :=
  (id, ⟨v, now + cacheTTL⟩) :: c.filter (fun p => p.1 ≠ id)

/-- `c.Get(id)` at time `now`: the stored value unless absent or expired
(`now` strictly past the expiry). Pure: the store is untouched. -/
def cacheGet (c : Cache) (id : String) (now : Int) : Option cachedRequest :=
  match c.find? (fun p => p.1 = id) with
  | none => none
  | some p => if now > p.2.expiresAt then none else some p.2.value

/-- The background sweep (`DeleteExpired`) at time `now`. -/
def cacheSweep (c : Cache) (now : Int) : Cache :=
  c.filter (fun p => ¬ now > p.2.expiresAt)

/-! ## Requests, server state and the handler -/

/-- An inbound request as `handleProxy` reads it. `host` is Go's `r.Host`
(the public host the client connected to); `url` is `r.URL` as parsed from
the request target. `cookie` is the value of the `tps-jwt` cookie when the
request carries one (`c.Cookie` errs exactly when it is absent). `form` are
the POST form values (`c.PostForm` reads `""` for a missing field). -/
structure Request where
  method : String
  host : String
  url : GoURL
  headers : Headers
  body : String
  cookie : Option JwtToken
  form : List (String × String)
  deriving DecidableEq, Repr

def formGet (r : Request) (key : String) : String :=
  match r.form.find? (fun p => p.1 = key) with
  | none => ""
  | some p => p.2

/-- The `Server` fields the request path reads. -/
structure Server where
  siteKey : String
  secretKey : String
  jwtSigningKey : String
  proxyTarget : GoURL
  templates : TemplateMap
  deriving DecidableEq, Repr

/-- Outcome of the one outbound call to the verification authority:
`client.PostForm` transport failure, JSON decode failure, or a decoded
`cloudflareVerifyResponse` (its `success` flag and error codes). -/
inductive CfResult
  | transportError
  | decodeError
  | ok (success : Bool) (errorCodes : List String)
  deriving DecidableEq, Repr

/-- Per-request environment: the clock, the id `requestid.New()` returns,
the verification authority's behavior, and whether `io.ReadAll` on the
request body succeeds. -/
structure Env where
  now : Int
  freshId : String
  verify : CfResult
  bodyReadOk : Bool
  deriving DecidableEq, Repr

/-- The data rendered into the challenge template. -/
structure ChallengeData where
  siteKey : String
  requestID : String
  postAction : String
  deriving DecidableEq, Repr

/-- What the handler writes back: `c.String`, `c.HTML` (the failed page is
rendered with nil data), a passthrough proxy of the live request, or a
proxy of a request rebuilt from a cache snapshot. -/
inductive Response
  | plainText (status : Nat) (msg : String)
  | htmlPage (status : Nat) (tmpl : String) (data : Option ChallengeData)
  | proxiedPassthrough (r : Request)
  | proxiedReplay (method : String) (urlStr : String) (headers : Headers) (body : String)
  deriving DecidableEq, Repr

/-- Everything observable after one `handleProxy` run: the response, the
`tps-jwt` cookie set on it (if any), and the pending-request cache
afterwards. Audit logging (`db.LogRequest`) is fire-and-forget and carries
no response data, so it is not part of the outcome. -/
structure Outcome where
  response : Response
  setCookie : Option JwtToken
  cacheAfter : Cache
  deriving DecidableEq, Repr

/-- `issueTokenAndReplay`: sign the fixed claim set, set the cookie, then
look up the pending request and replay it (500 when the id is unknown or
expired). HMAC signing with a byte-slice key cannot fail in Go, and
`http.NewRequest` cannot fail on a method and URL taken from a previously
parsed request, so neither error branch is reachable in the model. -/
def issueTokenAndReplay (s : Server) (cache : Cache) (env : Env)
    (requestID : String) : Outcome :=
  let tok := signedToken s.jwtSigningKey env.now
  match cacheGet cache requestID env.now with
  | none =>
    { response := .plainText 500 "Could not find original request"
      setCookie := some tok
      cacheAfter := cache }
  | some cr =>
    { response := .proxiedReplay cr.method cr.url.render cr.headers cr.body
      setCookie := some tok
      cacheAfter := cache }

/-- The tail of `handleProxy` past the cookie check: verification
submission or challenge issuance. -/
def handleUnauthenticated (s : Server) (cache : Cache) (env : Env)
    (r : Request) : Outcome :=
  let turnstileResponse := formGet r "cf-turnstile-response"
  let requestID := formGet r "request_id"
  if r.method = "POST" ∧ turnstileResponse ≠ "" ∧ requestID ≠ "" then
    match env.verify with
    | .transportError =>
      { response := .plainText 500 "Failed to verify token"
        setCookie := none, cacheAfter := cache }
    | .decodeError =>
      { response := .plainText 500 "Failed to decode Cloudflare response"
        setCookie := none, cacheAfter := cache }
    | .ok true _ => issueTokenAndReplay s cache env requestID
    | .ok false _ =>
      { response := .htmlPage 401 (getTemplate s.templates r.url "failed") none
        setCookie := none, cacheAfter := cache }
  else
    if ¬ env.bodyReadOk then
      { response := .plainText 500 "Could not buffer request"
        setCookie := none, cacheAfter := cache }
    else
      { response := .htmlPage 200 (getTemplate s.templates r.url "challenge")
          (some ⟨s.siteKey, env.freshId, r.url.path⟩)
        setCookie := none
        cacheAfter := cacheSet cache env.freshId
          ⟨r.method, r.body, r.headers, r.url⟩ env.now }

/-- `handleProxy`: valid session cookie → passthrough proxy; otherwise the
submission-check / challenge path. -/
def handleProxy (s : Server) (cache : Cache) (env : Env) (r : Request) : Outcome :=
  match r.cookie with
  | some tok =>
    if jwtValid s.jwtSigningKey env.now tok then
      { response := .proxiedPassthrough r, setCookie := none, cacheAfter := cache }
    else handleUnauthenticated s cache env r
  | none => handleUnauthenticated s cache env r

/-- The part of an outcome the client observes directly: the response and
the session cookie set on it. (The cache is server-internal state; in the
running code the stored header multimap also embeds the raw `Cookie`
request header, which this view deliberately excludes.) -/
def clientView (o : Outcome) : Response × Option JwtToken :=
  (o.response, o.setCookie)

/-- The scenario in which `handleProxy` enters the verification-submission
branch: any cookie present fails verification, the method is POST, and both
form fields are nonempty. -/
def reachesSubmission (s : Server) (env : Env) (r : Request) : Prop :=
  (∀ tok, r.cookie = some tok → jwtValid s.jwtSigningKey env.now tok = false) ∧
    r.method = "POST" ∧
    formGet r "cf-turnstile-response" ≠ "" ∧
    formGet r "request_id" ≠ ""

/-! ## Concrete instances used by witnesses and counterexamples -/

/-- An ordinary origin-form request: the client connected to
`example.com` (carried in `r.Host`), and Go parsed the request target
`/a/b` into `r.URL`, leaving `r.URL.Host` empty. -/
def originFormReq : Request :=
  { method := "GET", host := "example.com", url := ⟨"", "", "/a/b", ""⟩
    headers := [], body := "", cookie := none, form := [] }

/-- A small server configuration. -/
def srv0 : Server :=
  { siteKey := "site", secretKey := "cfsecret", jwtSigningKey := "signkey"
    proxyTarget := ⟨"http", "backend:8080", "", ""⟩, templates := [] }

/-- A benign environment: clock at 1000, fresh id `fresh`, authority says
success, body readable. -/
def env0 : Env :=
  { now := 1000, freshId := "fresh", verify := .ok true [], bodyReadOk := true }

/-- A POST carrying a challenge response but no `request_id` field. -/
def reqNoId : Request :=
  { method := "POST", host := "front.example", url := ⟨"", "", "/res", ""⟩
    headers := [], body := "", cookie := none
    form := [("cf-turnstile-response", "proof")] }

/-- A verification submission: POST with both form fields, no cookie. -/
def reqSubmit : Request :=
  { method := "POST", host := "front.example", url := ⟨"", "", "/res", ""⟩
    headers := [], body := "", cookie := none
    form := [("cf-turnstile-response", "proof"), ("request_id", "id0")] }

/-- A token that fails verification under `srv0`'s key: signed with a
different key. -/
def badTok : JwtToken :=
  .wellFormed .HS256 ⟨some 0, some 999999, some 0⟩
    (.mac "otherkey" .HS256 ⟨some 0, some 999999, some 0⟩)

/-- Environment in which the outbound verification call fails at the
transport layer. -/
def envTransportFail : Env :=
  { now := 1000, freshId := "fresh", verify := .transportError, bodyReadOk := true }

/-- Environment in which the authority's response body cannot be
decoded. -/
def envDecodeFail : Env :=
  { now := 1000, freshId := "fresh", verify := .decodeError, bodyReadOk := true }

/-- Environment in which the authority reports `success:false`. -/
def envFailed : Env :=
  { now := 1000, freshId := "fresh", verify := .ok false ["invalid-input-response"]
    bodyReadOk := true }

/-- A pending-request snapshot used by witnesses. -/
def cachedReq0 : cachedRequest :=
  ⟨"GET", "bodybytes", [("Accept", ["text/html"])], ⟨"", "", "/orig", "q=1"⟩⟩

/-- The spec's validity condition for a session token (refinement side,
written from the spec's words in §4.1/§8 for comparison with `jwtValid`):
the signature was produced under the configured secret by the expected
HMAC scheme over this token's own header and claims, and the current time
lies within the validity window; malformed tokens are never valid. -/
def tokenValidSpec (key : String) (now : Int) : JwtToken → Prop
  | .malformed _ => False
  | .wellFormed alg claims sig =>
    sig = .mac key alg claims ∧ alg.isHMAC = true ∧
    (∀ e, claims.exp = some e → now < e) ∧
    (∀ n, claims.nbf = some n → n ≤ now)

/-! ## Helper lemmas -/

theorem handleProxy_not_auth (s : Server) (cache : Cache) (env : Env) (r : Request)
    (hc : ∀ tok, r.cookie = some tok → jwtValid s.jwtSigningKey env.now tok = false) :
    handleProxy s cache env r = handleUnauthenticated s cache env r := by
  cases hcook : r.cookie with
  | none => simp [handleProxy, hcook]
  | some tok => simp [handleProxy, hcook, hc tok hcook]

theorem handleProxy_submission (s : Server) (cache : Cache) (env : Env) (r : Request)
    (h : reachesSubmission s env r) :
    handleProxy s cache env r =
      match env.verify with
      | .transportError =>
        { response := .plainText 500 "Failed to verify token"
          setCookie := none, cacheAfter := cache }
      | .decodeError =>
        { response := .plainText 500 "Failed to decode Cloudflare response"
          setCookie := none, cacheAfter := cache }
      | .ok true _ => issueTokenAndReplay s cache env (formGet r "request_id")
      | .ok false _ =>
        { response := .htmlPage 401 (getTemplate s.templates r.url "failed") none
          setCookie := none, cacheAfter := cache } := by
  obtain ⟨hc, hm, ht, hr⟩ := h
  rw [handleProxy_not_auth s cache env r hc]
  simp [handleUnauthenticated, hm, ht, hr]

theorem handleUnauthenticated_cookie_irrelevant (s : Server) (cache : Cache) (env : Env)
    (r : Request) (c1 c2 : Option JwtToken) :
    handleUnauthenticated s cache env { r with cookie := c1 } =
      handleUnauthenticated s cache env { r with cookie := c2 } := rfl

theorem tmplSearch_eq_none (tpls : TemplateMap) (host : String) (parts : List String)
    (name : String) (n : Nat)
    (h : ∀ i, i ≤ n → tmplTryAt tpls host parts name i = none) :
    tmplSearch tpls host parts name n = none := by
  induction n with
  | zero => simpa [tmplSearch] using h 0 (Nat.le_refl 0)
  | succ k ih =>
    simp only [tmplSearch, h (k + 1) (Nat.le_refl _)]
    exact ih (fun i hi => h i (Nat.le_trans hi (Nat.le_succ k)))

/-! ## Claim theorems -/

/-- Claim C3: a snapshot stored under an identifier is returned intact by
any lookup at or before the expiry `now + TTL`; a lookup strictly after
the TTL reports missing; once the background sweep has run past the TTL
the entry is gone for good; and a lookup with an identifier absent from
the cache reports missing. -/
theorem pending_cache_put_take_ttl (c : Cache) (id : String) (v : cachedRequest)
    (now t u : Int) :
    (t ≤ now + cacheTTL → cacheGet (cacheSet c id v now) id t = some v) ∧
    (t > now + cacheTTL → cacheGet (cacheSet c id v now) id t = none) ∧
    (u > now + cacheTTL →
      ∀ t2, cacheGet (cacheSweep (cacheSet c id v now) u) id t2 = none) ∧
    (∀ c2 : Cache, c2.find? (fun p => p.1 = id) = none → cacheGet c2 id t = none) := by
  refine ⟨?_, ?_, ?_, ?_⟩
  · intro hle
    simp [cacheGet, cacheSet]
    omega
  · intro hgt
    simp [cacheGet, cacheSet]
    omega
  · intro hu t2
    have hnone : (cacheSweep (cacheSet c id v now) u).find? (fun p => p.1 = id) = none := by
      rw [List.find?_eq_none]
      intro x hx
      have hx' := List.mem_filter.mp hx
      rcases List.mem_cons.mp hx'.1 with heq | hmem
      · have hxp := hx'.2
        subst heq
        simp at hxp ⊢
        omega
      · have hne := (List.mem_filter.mp hmem).2
        simp at hne ⊢
        exact hne
    simp [cacheGet, hnone]
  · intro c2 hfind
    simp [cacheGet, hfind]

/-- Claim C3 witness: storing at time 0 and looking up at times 100 (hit),
400 (expired), after a sweep at 400 (gone), and with an unknown id
(missing). -/
theorem pending_cache_put_take_ttl_witness :
    (cacheGet (cacheSet [] "id0" ⟨"GET", "", [], ⟨"", "", "/p", ""⟩⟩ 0) "id0" 100 =
      some ⟨"GET", "", [], ⟨"", "", "/p", ""⟩⟩) ∧
    (cacheGet (cacheSet [] "id0" ⟨"GET", "", [], ⟨"", "", "/p", ""⟩⟩ 0) "id0" 400 = none) ∧
    (cacheGet (cacheSweep (cacheSet [] "id0" ⟨"GET", "", [], ⟨"", "", "/p", ""⟩⟩ 0) 400)
      "id0" 50 = none) ∧
    (cacheGet [] "id0" 100 = none) := by
  obtain ⟨h1, h2, h3, h4⟩ :=
    pending_cache_put_take_ttl [] "id0" ⟨"GET", "", [], ⟨"", "", "/p", ""⟩⟩ 0 100 400
  exact ⟨h1 (by decide), by
    have := pending_cache_put_take_ttl [] "id0" ⟨"GET", "", [], ⟨"", "", "/p", ""⟩⟩ 0 400 400
    exact this.2.1 (by decide),
    h3 (by decide) 50, h4 [] (by decide)⟩

/-- Claim C4: template resolution is longest-prefix and total. With
overrides registered at `host/a` and `host/a/b`, resolving `challenge` for
host `host` and path `/a/b/c` yields the `host/a/b` override; and whenever
no probe of the search loop finds an override, resolution returns the
default `core/<name>` entry. -/
theorem template_longest_prefix_and_total :
    getTemplate [("host/a/challenge", "tplA"), ("host/a/b/challenge", "tplAB")]
        ⟨"", "host", "/a/b/c", ""⟩ "challenge" = "host/a/b/challenge" ∧
    ∀ (tpls : TemplateMap) (url : GoURL) (name : String),
      (∀ i, i ≤ (tmplParts url.path).length →
        tmplTryAt tpls url.hostname (tmplParts url.path) name i = none) →
      getTemplate tpls url name = "core/" ++ name := by
  constructor
  · decide
  · intro tpls url name h
    simp only [getTemplate]
    rw [tmplSearch_eq_none tpls url.hostname (tmplParts url.path) name
      (tmplParts url.path).length h]

/-- Claim C4 witness: with no overrides registered, resolving `challenge`
for host `host` and path `/x` falls back to the core template. -/
theorem template_longest_prefix_and_total_witness :
    getTemplate [] ⟨"", "host", "/x", ""⟩ "challenge" = "core/" ++ "challenge" :=
  template_longest_prefix_and_total.2 [] ⟨"", "host", "/x", ""⟩ "challenge"
    (fun i hi => by
      have hlen : (tmplParts (GoURL.mk "" "host" "/x" "").path).length = 1 := by decide
      rw [hlen] at hi
      interval_cases i <;> decide)

/-- Claim C5 (code bug): the hostname `getTemplate` keys on is
`r.URL.Hostname()`, which for an origin-form request — the normal form of
every request a Go server receives — is empty, not the public hostname the
client connected to (which is carried in `r.Host`). Consequently an
override registered under the public hostname, as the README directs, is
never found: resolution falls back to the core template. -/
theorem template_host_not_public_hostname :
    (originFormReq.url.hostname = "" ∧ originFormReq.host = "example.com") ∧
    getTemplate [("example.com/a/challenge", "tpl")] originFormReq.url "challenge"
      = "core/challenge" := by
  decide

/-- Claim C1: `jwtValid` accepts exactly the tokens signed with the
configured secret by the HMAC scheme whose validity window contains the
current time (so tampered signatures, non-HMAC algorithms, out-of-window
timestamps and malformed tokens are all invalid, with no exception
thrown — the verifier is a total boolean function); and the caller treats
every invalid token identically, proceeding to the submission-check /
challenge flow exactly as for any other invalid token. -/
theorem session_token_verify_and_invalid_uniform (key : String) (now : Int)
    (tok : JwtToken) :
    (jwtValid key now tok = true ↔ tokenValidSpec key now tok) ∧
    (∀ (s : Server) (cache : Cache) (env : Env) (r : Request),
      jwtValid s.jwtSigningKey env.now tok = false →
      handleProxy s cache env { r with cookie := some tok } =
        handleUnauthenticated s cache env { r with cookie := some tok } ∧
      ∀ tok2, jwtValid s.jwtSigningKey env.now tok2 = false →
        clientView (handleProxy s cache env { r with cookie := some tok }) =
          clientView (handleProxy s cache env { r with cookie := some tok2 })) := by
  constructor
  · cases tok with
    | malformed raw => simp [jwtValid, tokenValidSpec]
    | wellFormed alg claims sig =>
      obtain ⟨i, e, n⟩ := claims
      cases e <;> cases n <;>
        simp [jwtValid, tokenValidSpec] <;> tauto
  · intro s cache env r hbad
    have h1 : handleProxy s cache env { r with cookie := some tok } =
        handleUnauthenticated s cache env { r with cookie := some tok } :=
      handleProxy_not_auth s cache env _ (fun t ht => by
        simp only [Option.some.injEq] at ht
        rw [← ht]
        exact hbad)
    refine ⟨h1, fun tok2 hbad2 => ?_⟩
    have h2 : handleProxy s cache env { r with cookie := some tok2 } =
        handleUnauthenticated s cache env { r with cookie := some tok2 } :=
      handleProxy_not_auth s cache env _ (fun t ht => by
        simp only [Option.some.injEq] at ht
        rw [← ht]
        exact hbad2)
    rw [h1, h2, handleUnauthenticated_cookie_irrelevant s cache env r (some tok) (some tok2)]

/-- Claim C1 witness: a token signed under a different key is rejected at
`srv0`, the handler on a request carrying it proceeds to the
submission-check flow, and two distinct invalid tokens yield the same
client-visible result. -/
theorem session_token_verify_and_invalid_uniform_witness :
    handleProxy srv0 [] env0 { reqSubmit with cookie := some badTok } =
      handleUnauthenticated srv0 [] env0 { reqSubmit with cookie := some badTok } ∧
    clientView (handleProxy srv0 [] env0 { reqSubmit with cookie := some badTok }) =
      clientView (handleProxy srv0 [] env0 { reqSubmit with cookie := some (.malformed "x") }) := by
  obtain ⟨h1, h2⟩ :=
    (session_token_verify_and_invalid_uniform "signkey" 1000 badTok).2
      srv0 [] env0 reqSubmit (by decide)
  exact ⟨h1, h2 (.malformed "x") (by decide)⟩

/-- Claim C2: on a verification submission, a transport failure or an
undecodable authority response yields a plain 500 response (never any HTML
page, in particular never the failed-challenge page), and any HTML page
the handler produces on the submission path is the 401 failed page, which
occurs only when the authority explicitly reported `success:false`. -/
theorem provider_failure_internal_error (s : Server) (cache : Cache) (env : Env)
    (r : Request) (h : reachesSubmission s env r) :
    ((env.verify = .transportError ∨ env.verify = .decodeError) →
      ∃ msg, (handleProxy s cache env r).response = .plainText 500 msg) ∧
    (∀ st tm d, (handleProxy s cache env r).response = .htmlPage st tm d →
      st = 401 ∧ tm = getTemplate s.templates r.url "failed" ∧
      ∃ ec, env.verify = .ok false ec) := by
  rw [handleProxy_submission s cache env r h]
  cases hv : env.verify with
  | transportError => simp
  | decodeError => simp
  | ok success ec =>
    cases success with
    | false => simp
    | true =>
      constructor
      · rintro (h1 | h1) <;> exact absurd h1 (by simp)
      · intro st tm d hresp
        rcases hg : cacheGet cache (formGet r "request_id") env.now with _ | cr <;>
          simp [issueTokenAndReplay, hg] at hresp

/-- Claim C2 witness: at a concrete submission with a transport-failing
authority, the response is a plain 500. -/
theorem provider_failure_internal_error_witness :
    ∃ msg, (handleProxy srv0 [] envTransportFail reqSubmit).response =
      .plainText 500 msg :=
  (provider_failure_internal_error srv0 [] envTransportFail reqSubmit
    ⟨fun tok ht => by simp [reqSubmit] at ht, by decide, by decide, by decide⟩).1
    (Or.inl rfl)

/-- Claim C6: a request whose session cookie fails verification (malformed,
expired, or wrongly signed) receives exactly the same client-visible result
(response and cookie-setting) as the same request carrying no session
cookie at all: no distinct error is surfaced, and both runs go through the
same submission-check / challenge path. -/
theorem invalid_cookie_same_as_no_cookie (s : Server) (cache : Cache) (env : Env)
    (r : Request) (tok : JwtToken)
    (hbad : jwtValid s.jwtSigningKey env.now tok = false) :
    clientView (handleProxy s cache env { r with cookie := some tok }) =
      clientView (handleProxy s cache env { r with cookie := none }) := by
  have h1 : handleProxy s cache env { r with cookie := some tok } =
      handleUnauthenticated s cache env { r with cookie := some tok } :=
    handleProxy_not_auth s cache env _ (fun t ht => by
      simp only [Option.some.injEq] at ht
      rw [← ht]
      exact hbad)
  have h2 : handleProxy s cache env { r with cookie := none } =
      handleUnauthenticated s cache env { r with cookie := none } :=
    handleProxy_not_auth s cache env _ (fun t ht => by simp at ht)
  rw [h1, h2, handleUnauthenticated_cookie_irrelevant s cache env r (some tok) none]

/-- Claim C6 witness: a concrete request with a wrongly-signed cookie gets
the same client-visible result as the cookieless request. -/
theorem invalid_cookie_same_as_no_cookie_witness :
    clientView (handleProxy srv0 [] env0 { reqSubmit with cookie := some badTok }) =
      clientView (handleProxy srv0 [] env0 { reqSubmit with cookie := none }) :=
  invalid_cookie_same_as_no_cookie srv0 [] env0 reqSubmit badTok (by decide)

/-- Claim C7: when the authority reports `success:false` on a verification
submission, the whole outcome is: HTTP 401 rendering the "failed" template
resolved for the request's URL, no session cookie set, cache untouched. -/
theorem failed_challenge_401_no_cookie (s : Server) (cache : Cache) (env : Env)
    (r : Request) (ec : List String)
    (h : reachesSubmission s env r) (hv : env.verify = .ok false ec) :
    handleProxy s cache env r =
      { response := .htmlPage 401 (getTemplate s.templates r.url "failed") none
        setCookie := none, cacheAfter := cache } := by
  rw [handleProxy_submission s cache env r h, hv]

/-- Claim C7 witness: concrete failed submission renders `core/failed`
with 401 and sets no cookie. -/
theorem failed_challenge_401_no_cookie_witness :
    handleProxy srv0 [] envFailed reqSubmit =
      { response := .htmlPage 401 "core/failed" none
        setCookie := none, cacheAfter := [] } := by
  rw [failed_challenge_401_no_cookie srv0 [] envFailed reqSubmit
    ["invalid-input-response"]
    ⟨fun tok ht => by simp [reqSubmit] at ht, by decide, by decide, by decide⟩ rfl]
  decide

/-- Claim C8 counterexample: a POST carrying a challenge response but no
`request_id` — the claim's "malformed input" — is answered with the
challenge page at HTTP 200, not with a 400 client error. -/
theorem missing_request_id_counterexample :
    (handleProxy srv0 [] env0 reqNoId).response =
      .htmlPage 200 "core/challenge" (some ⟨"site", "fresh", "/res"⟩) := by
  decide

/-- Claim C8 amended: a request that is not a valid session and misses the
`request_id` form field is not treated as a verification submission at
all — it falls through to the challenge path and (when its body is
readable) receives the challenge page with HTTP 200 and is captured in the
pending cache; no 400 response exists in the handler. -/
theorem missing_request_id_serves_challenge (s : Server) (cache : Cache) (env : Env)
    (r : Request)
    (hc : ∀ tok, r.cookie = some tok → jwtValid s.jwtSigningKey env.now tok = false)
    (hrid : formGet r "request_id" = "")
    (hbody : env.bodyReadOk = true) :
    handleProxy s cache env r =
      { response := .htmlPage 200 (getTemplate s.templates r.url "challenge")
          (some ⟨s.siteKey, env.freshId, r.url.path⟩)
        setCookie := none
        cacheAfter := cacheSet cache env.freshId
          ⟨r.method, r.body, r.headers, r.url⟩ env.now } := by
  rw [handleProxy_not_auth s cache env r hc]
  simp [handleUnauthenticated, hrid, hbody]

/-- Claim C8 amended witness: the concrete id-less POST gets the challenge
page and is cached. -/
theorem missing_request_id_serves_challenge_witness :
    handleProxy srv0 [] env0 reqNoId =
      { response := .htmlPage 200 (getTemplate srv0.templates reqNoId.url "challenge")
          (some ⟨srv0.siteKey, env0.freshId, reqNoId.url.path⟩)
        setCookie := none
        cacheAfter := cacheSet [] env0.freshId
          ⟨reqNoId.method, reqNoId.body, reqNoId.headers, reqNoId.url⟩ env0.now } :=
  missing_request_id_serves_challenge srv0 [] env0 reqNoId
    (fun tok ht => by simp [reqNoId] at ht) (by decide) rfl

/-- Claim C9: the success-path lookup does not consume the pending entry:
`issueTokenAndReplay` leaves the cache exactly as it was, so a second
lookup with the same identifier (still before its expiry) returns the same
entry. -/
theorem pending_lookup_preserves_entry (s : Server) (cache : Cache) (env : Env)
    (id : String) (v : cachedRequest)
    (hfound : cacheGet cache id env.now = some v) :
    (issueTokenAndReplay s cache env id).cacheAfter = cache ∧
    cacheGet (issueTokenAndReplay s cache env id).cacheAfter id env.now = some v := by
  simp [issueTokenAndReplay, hfound]

/-- Claim C9 witness: a concrete entry survives its own successful
consumption and is returned again by a second lookup. -/
theorem pending_lookup_preserves_entry_witness :
    (issueTokenAndReplay srv0 (cacheSet [] "id0" cachedReq0 1000) env0 "id0").cacheAfter
        = cacheSet [] "id0" cachedReq0 1000 ∧
    cacheGet (issueTokenAndReplay srv0 (cacheSet [] "id0" cachedReq0 1000) env0
        "id0").cacheAfter "id0" env0.now = some cachedReq0 :=
  pending_lookup_preserves_entry srv0 (cacheSet [] "id0" cachedReq0 1000) env0
    "id0" cachedReq0 (by decide)

/-- Claim C10: on a successful verification whose pending identifier is
absent from the cache, the client gets the internal-error response
*together with* a freshly issued session cookie (the cookie is set before
the cache is consulted), and that fresh cookie verifies under the server's
key at the same instant. -/
theorem cookie_issued_before_pending_lookup (s : Server) (cache : Cache) (env : Env)
    (r : Request) (ec : List String)
    (h : reachesSubmission s env r)
    (hv : env.verify = .ok true ec)
    (hmiss : cacheGet cache (formGet r "request_id") env.now = none) :
    handleProxy s cache env r =
      { response := .plainText 500 "Could not find original request"
        setCookie := some (signedToken s.jwtSigningKey env.now)
        cacheAfter := cache } ∧
    jwtValid s.jwtSigningKey env.now (signedToken s.jwtSigningKey env.now) = true := by
  constructor
  · rw [handleProxy_submission s cache env r h, hv]
    simp [issueTokenAndReplay, hmiss]
  · simp [jwtValid, signedToken, JwtAlg.isHMAC]

/-- Claim C10 witness: a concrete successful submission over an empty
cache gets the 500 error with a valid fresh cookie attached. -/
theorem cookie_issued_before_pending_lookup_witness :
    handleProxy srv0 [] env0 reqSubmit =
      { response := .plainText 500 "Could not find original request"
        setCookie := some (signedToken srv0.jwtSigningKey env0.now)
        cacheAfter := [] } ∧
    jwtValid srv0.jwtSigningKey env0.now (signedToken srv0.jwtSigningKey env0.now)
      = true :=
  cookie_issued_before_pending_lookup srv0 [] env0 reqSubmit []
    ⟨fun tok ht => by simp [reqSubmit] at ht, by decide, by decide, by decide⟩
    rfl (by decide)

end TPS
